import Mathlib

/-!
Shallow embedding of the `net::Channel` class from `src/C++/net/channel.cpp`
and `src/C++/net/channel.h`.

The network itself is abstracted into explicit environment parameters:
* for `send`, a predicate `succeeds : Nat → Bool` saying whether the
  connect-and-write of attempt `i` completes without throwing;
* for `receive`, a `ReadEnv` describing what the single `read_some` call
  delivered: the bytes, the reported length, the error code, together with
  the (uninitialized) initial contents of the stack buffer.

Machine bytes are modelled as `Nat` values (the value of an `unsigned char`);
lengths and indices are `Nat`; the C++ `int` port arguments are `Int`.
-/

namespace Net

/-- `CHANNEL_H_DEFAULT_PORT` from channel.h (line 22). -/
def CHANNEL_H_DEFAULT_PORT : Nat := 10000

/-- `CHANNEL_H_MAX_BUFFER` from channel.h (line 23): capacity of the stack
buffer used by `Channel::receive`. -/
def CHANNEL_H_MAX_BUFFER : Nat := 65536

/-- `net::byte` is `unsigned char`; modelled as a natural number. -/
abbrev Byte := Nat

/-- State of a `net::Channel` object: the single private member
`int port` (channel.h line 102). -/
structure Channel where
  port : Nat
deriving DecidableEq

/-- `Channel::Channel(const int port)` (channel.cpp lines 34-42).
Returns the constructed channel together with a flag recording whether the
out-of-range diagnostic was printed to `std::cerr`. -/
def channelCtor (port : Int) : Channel × Bool :=
  if port < 1 ∨ port > 65535 then ({ port := CHANNEL_H_DEFAULT_PORT }, true)
  else ({ port := port.toNat }, false)

/-- `Channel()` with the default argument `CHANNEL_H_DEFAULT_PORT`
(channel.h line 44). -/
def channelDefault : Channel × Bool := channelCtor (CHANNEL_H_DEFAULT_PORT : Nat)

/-- How a call to `Channel::send` ends:
`sent i` = the `break` at line 85 on attempt `i`;
`exited c` = `std::exit(1)` at line 91 (with `c` the exit status);
`returned` = ordinary return to the caller. -/
inductive SendOutcome where
  | sent (attempt : Nat)
  | exited (code : Nat)
  | returned
deriving DecidableEq

/-- Observable trace of a `Channel::send` call: its outcome, how many
connect-and-write attempts were made, and the list of attempt indices
reported as failed on `std::cerr` (line 87). -/
structure SendTrace where
  outcome : SendOutcome
  attemptsMade : Nat
  failures : List Nat
deriving DecidableEq

/-- The retry loop of `Channel::send` (channel.cpp lines 78-96), starting
from loop index `i`.  `succeeds j` abstracts whether the resolve, connect
and write of attempt `j` complete without throwing.  On failure the attempt
index is reported; if it was the last attempt (`i == attempts - 1`, line 89)
the process exits with status 1, otherwise the loop sleeps and retries. -/
def sendFrom (succeeds : Nat → Bool) (attempts i : Nat) : SendTrace :=
  if h : i < attempts then
    if succeeds i then
      { outcome := .sent i, attemptsMade := 1, failures := [] }
    else if i = attempts - 1 then
      { outcome := .exited 1, attemptsMade := 1, failures := [i] }
    else
      let t := sendFrom succeeds attempts (i + 1)
      { outcome := t.outcome, attemptsMade := t.attemptsMade + 1,
        failures := i :: t.failures }
  else
    { outcome := .returned, attemptsMade := 0, failures := [] }
termination_by attempts - i
decreasing_by omega

/-- `Channel::send(const Bytes&, int, const std::string&, unsigned int,
duration)` (channel.cpp lines 64-97).  An empty message returns at once
(lines 74-76); otherwise the retry loop runs.  `port`, `host` and `delayMs`
do not influence the abstract control flow (their effect is folded into
`succeeds`), but are kept to mirror the C++ signature. -/
def Channel.send (_ch : Channel) (message : List Byte) (_port : Int)
    (_host : String) (attempts : Nat) (_delayMs : Nat)
    (succeeds : Nat → Bool) : SendTrace :=
  if message.length = 0 then
    { outcome := .returned, attemptsMade := 0, failures := [] }
  else
    sendFrom succeeds attempts 0

/-- The string overload of `Channel::send` converts the message to bytes one
byte per code unit (channel.cpp lines 56-59) before delegating. -/
def strToBytes (s : String) : List Byte := s.data.map Char.toNat

/-- Error code reported by the single `socket.read_some` call in
`Channel::receive` (channel.cpp line 122): no error, `asio::error::eof`,
or any other error. -/
inductive ErrKind where
  | noError
  | eofError
  | otherError
deriving DecidableEq

/-- Environment of one `Channel::receive` call: the initial (uninitialized)
contents of the stack buffer, the bytes delivered by the single read, the
length the read reports, and the error code it sets. -/
structure ReadEnv where
  bufInit : Nat → Byte
  payload : Nat → Byte
  length : Nat
  error : ErrKind

/-- Contents of `byte buffer[CHANNEL_H_MAX_BUFFER]` after the read and the
two sentinel writes of channel.cpp lines 122-126: first the read fills
indices `0 ≤ i < length` with the payload, then `buffer[65535] := 0`
(line 123), then, if `length < 65536`, `buffer[length] := 0` (line 125). -/
def bufferAfter (env : ReadEnv) (i : Nat) : Byte :=
  if env.length < CHANNEL_H_MAX_BUFFER ∧ i = env.length then 0
  else if i = CHANNEL_H_MAX_BUFFER - 1 then 0
  else if i < env.length then env.payload i
  else env.bufInit i

/-- Return value of `Channel::receive`: the `Bytes` returned to the caller
and whether an exception message was printed on `std::cerr` (line 139). -/
structure RecvResult where
  data : List Byte
  reported : Bool
deriving DecidableEq

/-- Full observable effect of one `Channel::receive` call: the channel state
after the call, the port the acceptor bound (line 118), and the result. -/
structure RecvCall where
  chanAfter : Channel
  boundPort : Nat
  result : RecvResult
deriving DecidableEq

/-- The port the acceptor listens on, from channel.cpp line 118:
`(port >= 1 && port <= 65535) ? port : this->port`. -/
def effectivePort (ch : Channel) (port : Int) : Nat :=
  if 1 ≤ port ∧ port ≤ 65535 then port.toNat else ch.port

/-- `Channel::receive(const int port)` (channel.cpp lines 110-143), given the
read environment.  On `eof` the (still empty) `data` is returned (line 129);
on any other error the throw at line 131 is caught at line 138, the error is
reported, and the empty `data` is returned; otherwise the copy loop at
line 135 pushes `buffer[i]` for every `i` with `0 ≤ i ≤ length` — note the
inclusive upper bound.  The member `port` is never assigned. -/
def Channel.receive (ch : Channel) (port : Int) (env : ReadEnv) : RecvCall :=
  { chanAfter := ch
  , boundPort := effectivePort ch port
  , result :=
      match env.error with
      | .eofError => { data := [], reported := false }
      | .otherError => { data := [], reported := true }
      | .noError =>
          { data := (List.range (env.length + 1)).map (bufferAfter env)
          , reported := false } }

/-- `Channel::receiveText(const int port)` (channel.cpp lines 100-107):
wraps `receive` and builds a string from the bytes, one character per byte;
modelled as the byte sequence itself. -/
def Channel.receiveText (ch : Channel) (port : Int) (env : ReadEnv) : List Byte :=
  (ch.receive port env).result.data

/-- Buffer indices written by `Channel::receive` after the read returns:
`buffer[CHANNEL_H_MAX_BUFFER - 1]` at line 123, and `buffer[length]` at
line 125 when `length < CHANNEL_H_MAX_BUFFER`. -/
def receiveWrites (length : Nat) : List Nat :=
  [CHANNEL_H_MAX_BUFFER - 1] ++
    (if length < CHANNEL_H_MAX_BUFFER then [length] else [])

/-- Buffer indices read by the copy loop at channel.cpp lines 135-137,
which runs only when the read reported no error: all `i` with `i ≤ length`. -/
def receiveReads (length : Nat) (error : ErrKind) : List Nat :=
  match error with
  | .noError => List.range (length + 1)
  | .eofError => []
  | .otherError => []

/-- All buffer indices accessed by `Channel::receive` after the read. -/
def receiveAccesses (length : Nat) (error : ErrKind) : List Nat :=
  receiveWrites length ++ receiveReads length error

/-- Read environment of a loopback round trip in which the single read
delivers exactly the sender's bytes with no error. -/
def roundTripEnv (msg : List Byte) (bufInit : Nat → Byte) : ReadEnv :=
  { bufInit := bufInit
  , payload := fun i => msg.getD i 0
  , length := msg.length
  , error := .noError }

/-- A concrete error-free read environment delivering the five bytes of
`"hello"` into a buffer whose uninitialized cells hold 170. -/
def envHello : ReadEnv := roundTripEnv (strToBytes "hello") (fun _ => 170)

/-- A concrete error-free read environment in which the read fills the whole
buffer: 65536 bytes, every payload byte 1, uninitialized cells 170. -/
def envFull : ReadEnv :=
  { bufInit := fun _ => 170
  , payload := fun _ => 1
  , length := CHANNEL_H_MAX_BUFFER
  , error := .noError }

/-- C1: for an error-free read of `n < 65536` bytes, `Channel::receive` does
write the sentinel at `buffer[n]`, but the returned sequence has `n + 1`
bytes — the payload followed by the copied sentinel — not `n` bytes as the
claim states, because the copy loop bound is `i <= length`.  Shown here at
`n = 5` with payload `"hello"`. -/
theorem C1_receive_appends_sentinel_byte :
    bufferAfter envHello 5 = 0 ∧
    (Channel.mk 10000 |>.receive 0 envHello).result.data
      = [104, 101, 108, 108, 111, 0] ∧
    (Channel.mk 10000 |>.receive 0 envHello).result.data.length = 6 ∧
    envHello.length = 5 := by
  refine ⟨rfl, ?_, ?_, ?_⟩ <;> decide

/-- The `data` returned by `Channel::receive` on the no-error path. -/
theorem receive_noError_data (ch : Channel) (port : Int) (env : ReadEnv)
    (h : env.error = .noError) :
    (ch.receive port env).result.data
      = (List.range (env.length + 1)).map (bufferAfter env) := by
  obtain ⟨bi, pl, len, err⟩ := env
  cases err
  · rfl
  · cases h
  · cases h

/-- C2: at a full-capacity read (`length = 65536`, no error) the code copies
`length + 1 = 65537` bytes: the first 65535 payload bytes, the sentinel 0
written over the final buffer cell, and then one out-of-bounds byte
(`buffer[65536]`, modelled by the junk value 170) — not the 65536 bytes
(65535 payload bytes plus sentinel) the claim states. -/
theorem C2_full_capacity_read_copies_extra_byte :
    (Channel.mk 10000 |>.receive 0 envFull).result.data.length = 65537 ∧
    ((Channel.mk 10000 |>.receive 0 envFull).result.data)[0]? = some 1 ∧
    ((Channel.mk 10000 |>.receive 0 envFull).result.data)[65534]? = some 1 ∧
    ((Channel.mk 10000 |>.receive 0 envFull).result.data)[65535]? = some 0 ∧
    ((Channel.mk 10000 |>.receive 0 envFull).result.data)[65536]? = some 170 := by
  rw [receive_noError_data _ _ _ rfl]
  refine ⟨?_, ?_, ?_, ?_, ?_⟩ <;>
    simp [List.getElem?_map, List.getElem?_range, envFull, bufferAfter,
      CHANNEL_H_MAX_BUFFER]

/-- C5: `Channel::receive` returns an empty byte sequence both on clean EOF
(without reporting) and on any other transport error (after reporting); the
returned `Bytes` is `[]` in both cases, so the caller cannot tell the two
apart from the return value. -/
theorem C5_receive_empty_on_eof_and_error (ch : Channel) (port : Int)
    (bufInit payload : Nat → Byte) (length : Nat) :
    (ch.receive port
        { bufInit := bufInit, payload := payload, length := length,
          error := .eofError }).result
      = { data := [], reported := false } ∧
    (ch.receive port
        { bufInit := bufInit, payload := payload, length := length,
          error := .otherError }).result
      = { data := [], reported := true } :=
  ⟨rfl, rfl⟩

/-- C6: constructing a `Channel` with a port outside 1-65535 does not fail:
the stored port equals the one stored by the no-argument constructor and the
diagnostic is emitted; a port inside 1-65535 is stored unchanged with no
diagnostic. -/
theorem C6_ctor_out_of_range_falls_back_to_default (port : Int) :
    ((port < 1 ∨ port > 65535) →
      (channelCtor port).1 = channelDefault.1 ∧ (channelCtor port).2 = true) ∧
    (1 ≤ port → port ≤ 65535 →
      (channelCtor port).1.port = port.toNat ∧ (channelCtor port).2 = false) := by
  constructor
  · intro h
    unfold channelCtor channelDefault
    rw [if_pos h]
    exact ⟨by decide, rfl⟩
  · intro h1 h2
    unfold channelCtor
    rw [if_neg (by omega)]
    exact ⟨rfl, rfl⟩

/-- C6 witness: ports 0 and 70000 fall back to the default construction, with
the diagnostic; port 5000 is stored unchanged. -/
theorem C6_ctor_fallback_witness :
    (channelCtor 0).1 = channelDefault.1 ∧
    (channelCtor 70000).1 = channelDefault.1 ∧
    (channelCtor 0).2 = true ∧
    (channelCtor 5000).1.port = (5000 : Int).toNat :=
  ⟨((C6_ctor_out_of_range_falls_back_to_default 0).1 (by decide)).1,
   ((C6_ctor_out_of_range_falls_back_to_default 70000).1 (by decide)).1,
   ((C6_ctor_out_of_range_falls_back_to_default 0).1 (by decide)).2,
   ((C6_ctor_out_of_range_falls_back_to_default 5000).2 (by decide) (by decide)).1⟩

/-- C7: for every port, host, attempt budget and delay, `Channel::send` with
an empty message is a silent no-op: it returns normally, makes zero
connection attempts and reports no failures. -/
theorem C7_send_empty_message_is_noop (ch : Channel) (port : Int)
    (host : String) (attempts delayMs : Nat) (succeeds : Nat → Bool) :
    ch.send [] port host attempts delayMs succeeds
      = { outcome := .returned, attemptsMade := 0, failures := [] } :=
  rfl

/-- C8: the acceptor of `Channel::receive` binds the supplied port when it is
in 1-65535 and the channel's configured port otherwise, and the call never
modifies the channel's stored state. -/
theorem C8_receive_binds_effective_port (ch : Channel) (port : Int)
    (env : ReadEnv) :
    ((1 ≤ port ∧ port ≤ 65535) →
      (ch.receive port env).boundPort = port.toNat) ∧
    (¬(1 ≤ port ∧ port ≤ 65535) →
      (ch.receive port env).boundPort = ch.port) ∧
    (ch.receive port env).chanAfter = ch := by
  refine ⟨fun h => ?_, fun h => ?_, rfl⟩
  · show effectivePort ch port = port.toNat
    unfold effectivePort
    rw [if_pos h]
  · show effectivePort ch port = ch.port
    unfold effectivePort
    rw [if_neg h]

/-- C8 witness: with a channel configured on port 10000, `receive 5000` binds
port 5000 and `receive 0` binds the configured port 10000; the channel state
is unchanged. -/
theorem C8_receive_binds_effective_port_witness :
    ((Channel.mk 10000).receive 5000 envHello).boundPort = (5000 : Int).toNat ∧
    ((Channel.mk 10000).receive 0 envHello).boundPort = (Channel.mk 10000).port ∧
    ((Channel.mk 10000).receive 0 envHello).chanAfter = Channel.mk 10000 :=
  ⟨(C8_receive_binds_effective_port (Channel.mk 10000) 5000 envHello).1
      (by decide),
   (C8_receive_binds_effective_port (Channel.mk 10000) 0 envHello).2.1
      (by decide),
   (C8_receive_binds_effective_port (Channel.mk 10000) 0 envHello).2.2⟩

/-- On an environment where every attempt fails, the retry loop starting at
index `i < attempts` reports attempts `i, i+1, ..., attempts-1` and exits
with status 1. -/
theorem sendFrom_all_fail (succeeds : Nat → Bool)
    (hfail : ∀ j, succeeds j = false) (attempts : Nat) :
    ∀ n i, attempts - i = n → i < attempts →
      sendFrom succeeds attempts i
        = { outcome := .exited 1, attemptsMade := attempts - i,
            failures := List.range' i (attempts - i) } := by
  intro n
  induction n with
  | zero =>
    intro i h0 hi
    omega
  | succ n ih =>
    intro i hn hi
    rw [sendFrom, dif_pos hi, hfail i]
    simp only [Bool.false_eq_true, if_false]
    by_cases hlast : i = attempts - 1
    · rw [if_pos hlast]
      have h1 : attempts - i = 1 := by omega
      rw [h1, List.range'_one]
    · rw [if_neg hlast]
      have hi1 : i + 1 < attempts := by omega
      have h2 : attempts - i = attempts - (i + 1) + 1 := by omega
      rw [ih (i + 1) (by omega) hi1, h2, List.range'_succ]

/-- C3: for every non-empty message and `attempts ≥ 1`, if every
connect-and-write attempt fails, `Channel::send` makes exactly `attempts`
attempts, reports each of them (attempt indices `0, ..., attempts-1`), and
then calls `std::exit(1)` — terminating the process with a non-zero status
instead of returning to the caller. -/
theorem C3_send_exhaustion_exits (ch : Channel) (message : List Byte)
    (port : Int) (host : String) (attempts delayMs : Nat)
    (succeeds : Nat → Bool) (hmsg : message ≠ []) (hatt : 1 ≤ attempts)
    (hfail : ∀ j, succeeds j = false) :
    ch.send message port host attempts delayMs succeeds
      = { outcome := .exited 1, attemptsMade := attempts,
          failures := List.range attempts } := by
  unfold Channel.send
  rw [if_neg (fun h => hmsg (List.length_eq_zero.mp h))]
  rw [sendFrom_all_fail succeeds hfail attempts attempts 0 rfl (by omega)]
  simp [List.range_eq_range']

/-- C3 witness: a 1-byte message with 3 attempts, all failing: send makes 3
attempts, reports attempts 0, 1 and 2, and exits with status 1. -/
theorem C3_send_exhaustion_exits_witness :
    (Channel.mk 10000).send [1] 7 "localhost" 3 0 (fun _ => false)
      = { outcome := .exited 1, attemptsMade := 3,
          failures := List.range 3 } :=
  C3_send_exhaustion_exits (Channel.mk 10000) [1] 7 "localhost" 3 0
    (fun _ => false) (by decide) (by decide) (fun _ => rfl)

/-- C4: round trip of `"hello"` — after the send is delivered by a single
error-free read of 5 bytes, `receiveText` returns the five bytes of
`"hello"` followed by the sentinel 0 (six bytes in all), which is *not*
equal to the bytes of `"hello"`: the copy loop's inclusive bound breaks the
round-trip equality the claim states. -/
theorem C4_round_trip_gains_sentinel :
    strToBytes "hello" = [104, 101, 108, 108, 111] ∧
    (Channel.mk 10000 |>.receiveText 0 envHello)
      = strToBytes "hello" ++ [0] ∧
    (Channel.mk 10000 |>.receiveText 0 envHello) ≠ strToBytes "hello" := by
  refine ⟨?_, ?_, ?_⟩ <;> decide

/-- C9: when the single read reports length 65536 (the full capacity) with
no error, the copy loop accesses buffer index 65536, which is *not*
strictly below the capacity — an out-of-bounds access, contradicting the
claim that every accessed index is below 65536; every accessed index is,
however, at most 65536. -/
theorem C9_copy_loop_reads_out_of_bounds :
    CHANNEL_H_MAX_BUFFER ∈ receiveAccesses CHANNEL_H_MAX_BUFFER .noError ∧
    ¬ CHANNEL_H_MAX_BUFFER < CHANNEL_H_MAX_BUFFER ∧
    ∀ j ∈ receiveAccesses CHANNEL_H_MAX_BUFFER .noError,
      j ≤ CHANNEL_H_MAX_BUFFER := by
  refine ⟨?_, by omega, ?_⟩
  · unfold receiveAccesses receiveReads receiveWrites CHANNEL_H_MAX_BUFFER
    simp [List.mem_range]
  · intro j hj
    unfold receiveAccesses receiveReads receiveWrites CHANNEL_H_MAX_BUFFER
      at hj
    simp [List.mem_range] at hj
    unfold CHANNEL_H_MAX_BUFFER
    omega

/-- C10: with a non-empty message and `attempts = 0`, the retry loop body
never runs: `Channel::send` returns normally with zero connection attempts
and no failure reports, and never reaches the `std::exit(1)` path, even
though the spec declares `attempts` a positive integer. -/
theorem C10_send_zero_attempts_returns (ch : Channel) (message : List Byte)
    (port : Int) (host : String) (delayMs : Nat) (succeeds : Nat → Bool)
    (hmsg : message ≠ []) :
    ch.send message port host 0 delayMs succeeds
      = { outcome := .returned, attemptsMade := 0, failures := [] } := by
  unfold Channel.send
  rw [if_neg (fun h => hmsg (List.length_eq_zero.mp h))]
  rw [sendFrom, dif_neg (by omega)]

/-- C10 witness: a 1-byte message with `attempts = 0` returns at once. -/
theorem C10_send_zero_attempts_returns_witness :
    (Channel.mk 10000).send [1] 7 "localhost" 0 0 (fun _ => true)
      = { outcome := .returned, attemptsMade := 0, failures := [] } :=
  C10_send_zero_attempts_returns (Channel.mk 10000) [1] 7 "localhost" 0
    (fun _ => true) (by decide)

end Net
